import Mathlib

/-!
Verification development for `joblib/exception_fmt.py`, a verbose
traceback formatter adapted from IPython's VerboseTB.

Each definition below is a shallow embedding of one function (or one
self-contained piece of a function) of the Python source; the doc
comment of each definition names the source lines it embeds.  Calls
into the Python runtime or standard library (introspection, lexing,
`repr`, the file system) are modelled as explicit inputs: every
fallible external call appears as an `Except` value supplied by the
environment, so that the module's own control flow - which `except`
clause catches what, which results are kept or dropped - is what the
definitions capture.
-/

/-! ### Module constant (source line 18): `INDENT = ' '*8` -/

def spaces (n : Nat) : String :=
  String.mk (List.replicate n (' '))

def INDENT : String := spaces 8

/-- Python `string.rjust(s, w)` / `'%*s' % (w, s)`: left-pad with
spaces to width `w` (unchanged when already at least that wide). -/
def rjust (s : String) (w : Nat) : String :=
  spaces (w - s.length) ++ s

/-! ### `uniq_stable` (source lines 56-76)

The loop keeps a list `unique` and a dictionary `unique_dict` holding
exactly the elements of `unique`; the dictionary is only a membership
index, so the embedding tests membership in the accumulated list. -/

def uniq_stable_loop {α : Type} [DecidableEq α] : List α → List α → List α
  | [], unique => unique
  | nn :: rest, unique =>
    if nn ∈ unique then uniq_stable_loop rest unique
    else uniq_stable_loop rest (unique ++ [nn])

def uniq_stable {α : Type} [DecidableEq α] (elems : List α) : List α :=
  uniq_stable_loop elems []

/-- Written from the spec's words ("the output preserves the
subsequence of first occurrences in original order and contains each
distinct element exactly once"): keep the head, then deduplicate the
tail with all copies of the head removed.  Used to state the order
property of `uniq_stable`. -/
def firstOccurrenceDedup {α : Type} [DecidableEq α] : List α → List α
  | [] => []
  | x :: xs => x :: firstOccurrenceDedup (xs.filter (fun y => y ≠ x))
termination_by l => l.length
decreasing_by
  simp only [List.length_cons]
  exact Nat.lt_succ_of_le (List.length_filter_le _ _)

/-! ### Source-window extraction (source lines 120-133)

The per-frame body of the loop in `_fixed_getframes` (duplicated at
lines 414-425 in `print_outer_frame`):

    maybeStart = lnum-1 - context//2
    start =  max(maybeStart, 0)
    end   = start + context
    lines = linecache.getlines(file)[start:end]
    if maybeStart < 0:
        lines = (['\x5cn'] * -maybeStart) + lines
    if len(lines) < context:
        lines += ['\x5cn'] * (context - len(lines))

`linecache.getlines` is the external file reader: it yields the file's
line list, and the empty list when the file cannot be found; the
embedding takes that list as the `fileLines` argument. -/
def padHead (maybeStart : Int) (lines : List String) : List String :=
  if maybeStart < 0 then List.replicate (-maybeStart).toNat ("\n") ++ lines
  else lines

def padTail (context : Nat) (lines : List String) : List String :=
  if lines.length < context then
    lines ++ List.replicate (context - lines.length) ("\n")
  else lines

def extractWindow (fileLines : List String) (lnum context : Nat) : List String :=
  padTail context
    (padHead ((lnum : Int) - 1 - (context : Int) / 2)
      ((fileLines.drop ((lnum : Int) - 1 - (context : Int) / 2).toNat).take context))

/-- Source line 132: `buf[INDEX_POS] = lnum - 1 - start` (Python int
arithmetic, `start = max(lnum-1 - context//2, 0)`). -/
def extractIndex (lnum context : Nat) : Int :=
  let maybeStart : Int := (lnum : Int) - 1 - (context : Int) / 2
  (lnum : Int) - 1 - (maybeStart.toNat : Int)

/-! ### `safe_repr` (source lines 22-48)

A Python value is modelled by the outcomes of the four operations
`safe_repr` performs on it: `pydoc.text.repr(value)`, `repr(value)`,
`getattr(value, '__name__', None)` and `getattr(value, '__class__',
None)`.  Each may return normally, raise `KeyboardInterrupt`, or raise
any other exception; a returned attribute is either a falsy value
(`None`, or anything Python treats as false in `if name:`) or a truthy
value, which is again a Python value. -/

inductive PyErr where
  | ki : PyErr
  | exn : PyErr
deriving DecidableEq

mutual
inductive PyVal where
  | mk : Except PyErr String → Except PyErr String → PyAttr → PyAttr → PyVal

inductive PyAttr where
  | raises : PyErr → PyAttr
  | absent : PyAttr
  | attr : PyVal → PyAttr
end

/-- Python `'%s' % x` where `x` is the result of `safe_repr` (a string
or `None`): `None` renders as the text `None`. -/
def pyStrOpt : Option String → String
  | some s => s
  | none => "None"

/-- Source lines 22-48.  The nesting of `try`/`except` blocks is
transcribed directly: every `except KeyboardInterrupt: raise` becomes
an `.error .ki` result, every bare `except` catches `.exn` and falls
through to the next fallback, and falling off the end of the function
(no truthy `__name__`, no truthy `__class__`) is Python's implicit
`return None`, i.e. `.ok none`. -/
def safe_repr : PyVal → Except PyErr (Option String)
  | .mk pydocRes reprRes nameAttr classAttr =>
    match pydocRes with
    | .ok s => .ok (some s)
    | .error .ki => .error .ki
    | .error .exn =>
      match reprRes with
      | .ok s => .ok (some s)
      | .error .ki => .error .ki
      | .error .exn =>
        match nameAttr with
        | .raises .ki => .error .ki
        | .raises .exn => .ok (some ("UNRECOVERABLE REPR FAILURE"))
        | .attr nameVal =>
          match safe_repr nameVal with
          | .error .ki => .error .ki
          | .error .exn => .ok (some ("UNRECOVERABLE REPR FAILURE"))
          | .ok r => .ok r
        | .absent =>
          match classAttr with
          | .raises .ki => .error .ki
          | .raises .exn => .ok (some ("UNRECOVERABLE REPR FAILURE"))
          | .attr classVal =>
            match safe_repr classVal with
            | .error .ki => .error .ki
            | .error .exn => .ok (some ("UNRECOVERABLE REPR FAILURE"))
            | .ok r => .ok (some (pyStrOpt r ++ (" instance")))
          | .absent => .ok none

/-! ### The name-collecting tokenizer callback (source lines 216-263)

`tokenize.tokenize(linereader, tokeneater)` is the Python standard
library's lexical scanner (external): it reads the failing source line
and calls `tokeneater` once per lexical token with the token's type
and text.  The embedding takes the token stream as an explicit list of
(type, text) pairs and folds the callback over it.  Raising
`IndexError` from the callback is how the source stops the scan (it is
caught at line 264); the embedding returns `.error ()` for it. -/

/-- Python token categories distinguished by the callback: it compares
`token_type` against `tokenize.NAME` and `tokenize.NEWLINE` only. -/
inductive TokType where
  | NAME : TokType
  | OP : TokType
  | NEWLINE : TokType
  | NUMBER : TokType
  | STR : TokType
  | other : TokType
deriving DecidableEq

/-- `keyword.kwlist` of the Python 2 runtime the module targets. -/
def kwlist : List String :=
  ["and", "as", "assert", "break", "class", "continue", "def", "del",
   "elif", "else", "except", "exec", "finally", "for", "from", "global",
   "if", "import", "in", "is", "lambda", "not", "or", "pass", "print",
   "raise", "return", "try", "while", "with", "yield"]

/-- Python `names[-1] += s` on a non-empty list. -/
def appendToLast (s : String) : List String → List String
  | [] => []
  | [x] => [x ++ s]
  | x :: xs => x :: appendToLast s xs

/-- The mutable state the callback keeps between tokens: the `names`
list it builds in place and the `tokeneater.name_cont` flag. -/
structure TokState where
  names : List String
  name_cont : Bool

/-- Source lines 234-248: the checks that follow the dot-handling
block (reached directly for non-dot tokens, and by fall-through when a
dot arrives while `names` is empty and the `names[-1]` access raises
`IndexError`, which the `except IndexError: pass` swallows). -/
def tokeneaterMain (st : TokState) (ttype : TokType) (token : String) :
    Except Unit TokState :=
  if ttype = TokType.NAME ∧ token ∉ kwlist then
    if st.name_cont then
      match st.names with
      | [] => .error ()
      | _ :: _ =>
        .ok { names := appendToLast token st.names, name_cont := false }
    else
      .ok { names := st.names ++ [token], name_cont := st.name_cont }
  else if ttype = TokType.NEWLINE then .error ()
  else .ok st

/-- Source lines 216-248: one call of the `tokeneater` callback. -/
def tokeneater (st : TokState) (ttype : TokType) (token : String) :
    Except Unit TokState :=
  if token = (".") then
    match st.names with
    | [] => tokeneaterMain st ttype token
    | _ :: _ =>
      .ok { names := appendToLast (".") st.names, name_cont := true }
  else tokeneaterMain st ttype token

/-- The scan loop: `tokenize.tokenize` feeds tokens until the callback
raises (`IndexError` on `NEWLINE` signals normal exit, caught at line
264); the `names` list accumulated so far is what remains. -/
def runTokeneater : List (TokType × String) → TokState → List String
  | [], st => st.names
  | t :: rest, st =>
    match tokeneater st t.1 t.2 with
    | .error _ => st.names
    | .ok st2 => runTokeneater rest st2

/-- Source lines 214-273: collect the names on the failing line, then
`unique_names = uniq_stable(names)`. -/
def referencedNames (toks : List (TokType × String)) : List String :=
  uniq_stable (runTokeneater toks { names := [], name_cont := false })

/-- Tokenization of the source line `y = obj.attr + obj.attr2` by the
Python lexical scanner (standard library `tokenize`, external to this
module): four identifiers, the operators `=`, `.`, `+`, `.`, and the
closing `NEWLINE` token. -/
def tokensObjLine : List (TokType × String) :=
  [(TokType.NAME, "y"), (TokType.OP, "="), (TokType.NAME, "obj"),
   (TokType.OP, "."), (TokType.NAME, "attr"), (TokType.OP, "+"),
   (TokType.NAME, "obj"), (TokType.OP, "."), (TokType.NAME, "attr2"),
   (TokType.NEWLINE, "\n")]

/-! ### The value resolver (source lines 276-302)

Per referenced name, the loop body at lines 277-288 (the `elif False:`
branch at lines 289-298 is dead code and contributes nothing).
`repr(eval(name_full, locals))` is runtime evaluation (external); its
outcome per name is supplied as `evalRepr`, and the bare `except:`
turns any failure into the text `undefined`. -/

/-- Python `name_full.split('.', 1)[0]`: the text before the first
dot, the whole string when there is none. -/
def baseIdent (s : String) : String :=
  String.mk (s.data.takeWhile (fun c => c ≠ ('.')))

def lvalEntry (covars localKeys : List String)
    (evalRepr : String → Except Unit String) (name_full : String) :
    Option String :=
  let name_base := baseIdent name_full
  if name_base ∈ covars then
    let value :=
      if name_base ∈ localKeys then
        match evalRepr name_full with
        | .ok v => v
        | .error _ => "undefined"
      else "undefined"
    some (name_full ++ (" = ") ++ value)
  else none

/-- The `for name_full in unique_names:` loop collecting `lvals`. -/
def lvalsEntries (covars localKeys : List String)
    (evalRepr : String → Except Unit String)
    (unique_names : List String) : List String :=
  unique_names.filterMap (lvalEntry covars localKeys evalRepr)

/-- Source lines 299-302: join the entries under the indent, or keep
the empty string when there are none. -/
def lvalsText (entries : List String) : String :=
  if entries = [] then ""
  else INDENT ++ String.intercalate (("\n") ++ INDENT) entries

/-! ### The call fragment (source lines 191-210)

`inspect.getargvalues`/`inspect.formatargvalues` are runtime
introspection (external); the embedded environment supplies the
outcome of formatting the argument list (`fmtArgs`).  A failure is a
`KeyError` - the only exception the source catches here - or any other
exception, which the source lets propagate. -/

inductive PyExn where
  | keyError : PyExn
  | other : PyExn
deriving DecidableEq

def callFragment (func : String) (fmtArgs : Except PyExn String) :
    Except PyExn String :=
  if func = ("?") then .ok ""
  else
    match fmtArgs with
    | .ok s => .ok (("in ") ++ func ++ s)
    | .error .keyError =>
      .ok (("in ") ++ func ++ ("(***failed resolving arguments***)"))
    | .error e => .error e

/-! ### `_format_traceback_lines` (source lines 138-164) -/

/-- Source lines 144-155: the marker put in front of the failing
line's number (`numbers_width = 7`). -/
def lineMarker (i : Int) : String :=
  let pad : Int := 7 - (toString i).length
  if pad ≥ 3 then String.mk (List.replicate (pad - 3).toNat ('-')) ++ ("-> ")
  else if pad = 2 then "> "
  else if pad = 1 then ">"
  else ""

/-- The `for line in lines:` loop of lines 143-163, carrying the
running line number `i`; `lvals` is appended right after the failing
line when non-empty (Python `if lvals and i == lnum:`). -/
def formatLinesLoop (lnum : Int) (lvals : String) :
    Int → List String → List String
  | _, [] => []
  | i, line :: rest =>
    let num :=
      if i = lnum then lineMarker i ++ toString i
      else rjust (toString i) 7
    let formatted := num ++ (" ") ++ line
    let tail := formatLinesLoop lnum lvals (i + 1) rest
    if lvals ≠ ("") ∧ i = lnum then formatted :: (lvals ++ ("\n")) :: tail
    else formatted :: tail

/-- Source lines 138-164: `i` starts at `lnum - index`. -/
def format_traceback_lines (lnum index : Int) (lines : List String)
    (lvals : String) : List String :=
  formatLinesLoop lnum lvals (lnum - index) lines

/-! ### `print_records` (source lines 167-320)

One record carries what the loop body reads from the frame: the
(abspath-normalized, external) file path, the line number, the
function name, the argument-formatting outcome (lines 182-198), the
token stream of the failing line (external lexer, lines 253-263), the
frame's `co_varnames` and locals keys, the per-name evaluation outcome
(line 282), and the context window with its index. -/

structure RenderRecord where
  file : String
  lnum : Nat
  func : String
  fmtArgs : Except PyExn String
  tokens : List (TokType × String)
  covars : List String
  localKeys : List String
  evalRepr : String → Except Unit String
  lines : List String
  index : Option Int

/-- Source line 304: `level = '%s\x5cn%s %s\x5cn' % (75*'.', link, call)`. -/
def dots75 : String := String.mk (List.replicate 75 ('.'))

def frameLevel (r : RenderRecord) (call : String) : String :=
  dots75 ++ ("\n") ++ r.file ++ (" ") ++ call ++ ("\n")

/-- Source lines 181-310: one iteration of the record loop, producing
the text block appended to `frames`.  A non-`KeyError` failure of the
argument formatting propagates (the `except KeyError` at line 199 is
the only handler).  When `index is None` only the level line is kept;
otherwise the numbered source window follows (lines 306-310). -/
def frameBody (r : RenderRecord) : Except PyExn String :=
  match callFragment r.func r.fmtArgs with
  | .error e => .error e
  | .ok call =>
    let unique_names := referencedNames r.tokens
    let lv := lvalsText (lvalsEntries r.covars r.localKeys r.evalRepr unique_names)
    let level := frameLevel r call
    match r.index with
    | none => .ok level
    | some idx =>
      .ok (level ++
        String.join (format_traceback_lines (r.lnum : Int) idx r.lines lv))

/-- The whole record loop of `print_records`, returning the `frames`
list (the trailing `abspath` at lines 312-317 only computes unused
locals and is omitted). -/
def printRecords : List RenderRecord → Except PyExn (List String)
  | [] => .ok []
  | r :: rest =>
    match frameBody r with
    | .error e => .error e
    | .ok s =>
      match printRecords rest with
      | .error e => .error e
      | .ok others => .ok (s :: others)

/-! ### `fix_frame_records_filenames` (source lines 81-98) -/

/-- What `frame.f_globals.get('__file__', None)` yields: a Python
string, or some non-string object (`None` from a failed import, or
anything weird someone stored there). -/
inductive PyFileVal where
  | strv : String → PyFileVal
  | nonstr : PyFileVal

/-- The only part of a frame object this function reads. -/
structure PyFrame where
  file_global : Option PyFileVal

/-- One 6-tuple of `inspect.getinnerframes`. -/
structure FrameTuple where
  frame : PyFrame
  filename : String
  line_no : Nat
  func_name : String
  lines : Option (List String)
  index : Option Int

/-- Source lines 81-98: replace the filename by the frame's global
`__file__` exactly when that global exists and is a string
(`isinstance(better_fn, str)`). -/
def fix_frame_records_filenames (records : List FrameTuple) : List FrameTuple :=
  records.map (fun r =>
    match r.frame.file_global with
    | some (PyFileVal.strv s) => { r with filename := s }
    | _ => r)

/-! ### `print_exc` (source lines 324-387)

The environment supplies every value `print_exc` obtains from the
runtime: the exception type's name (after the `etype.__name__`
attempt of lines 335-338), the interpreter banner pieces
(`sys.version` / `sys.executable` / `time.ctime`), the outcome of
`_fixed_getframes` (lines 353-358, including the possibility that it
raises), the `str` forms of the exception type and value with their
fallbacks (lines 361-366), whether the value is an old-style instance
(`types.InstanceType`), the outcome of `dir(evalue)` filtered to
strings (lines 369-381, the error case carrying the `str` forms of
`sys.exc_info()[:2]` for the failure), and `safe_repr(getattr(evalue,
name))` per attribute name (line 383, modelled as total). -/

structure ExcInput where
  etypeName : String
  pyVersion : String
  executable : String
  date : String
  framesResult : Except PyExn (List RenderRecord)
  etypeStr : String
  evalueStr : String
  strMapFails : Bool
  fallbackEtypeStr : String
  fallbackEvalueStr : String
  isOldStyleInstance : Bool
  dirNames : Except (String × String) (List String)
  attrVal : String → String

/-- Source lines 324-387, transcribed clause by clause.  Note two
decisive details of the source: the `except:` at line 355 immediately
re-`raise`s (the graceful-degradation `print`/`return ''` after it is
unreachable), and the return at line 387 interpolates
`''.join(exception[0])` - joining the characters of the *first* list
entry only - so every entry appended after `exception[0]` (the broken-
`dir()` placeholder among them) is dropped from the output. -/
def print_exc (inp : ExcInput) : Except PyExn String :=
  let pyver := ("Python ") ++ inp.pyVersion ++ (": ") ++ inp.executable
  let etype := inp.etypeName
  let head0 :=
    etype ++ spaces (75 - etype.length - pyver.length) ++ pyver ++ ("\n") ++
      rjust inp.date 75
  let head := head0 ++
    ("\nA problem occured executing Python code.  Here is the sequence of function\ncalls leading up to the error, with the most recent (innermost) call last.")
  match inp.framesResult with
  | .error e => .error e
  | .ok records =>
    let ts := if inp.strMapFails then inp.fallbackEtypeStr else inp.etypeStr
    let vs := if inp.strMapFails then inp.fallbackEvalueStr else inp.evalueStr
    let exc0 := ts ++ (": ") ++ vs
    let exception :=
      if inp.isOldStyleInstance then
        match inp.dirNames with
        | .ok names =>
          [exc0] ++ names.map (fun n =>
            ("\n") ++ INDENT ++ n ++ (" = ") ++ inp.attrVal n)
        | .error p =>
          [exc0, "Exception reporting error (object with broken dir()):",
           p.1 ++ (": ") ++ p.2]
      else [exc0]
    match printRecords records with
    | .error e => .error e
    | .ok frames =>
      .ok (head ++ ("\n\n") ++ String.intercalate ("\n") frames ++ ("\n") ++
        exception.headD "")

/-! ### Plain character-list search helpers, used to state that a
rendered text does **not** contain a given fragment. -/

def startsWithChars : List Char → List Char → Bool
  | [], _ => true
  | _ :: _, [] => false
  | a :: as, b :: bs => a = b && startsWithChars as bs

def occursInChars (pat : List Char) : List Char → Bool
  | [] => startsWithChars pat []
  | b :: bs => startsWithChars pat (b :: bs) || occursInChars pat bs

/-! ### Concrete scenarios used by the theorems below -/

/-- A call of `print_exc` on an old-style instance whose `dir()`
raises (`AttributeError: boom`), with an empty frame list and fixed
banner strings. -/
def brokenDirInput : ExcInput :=
  { etypeName := "E", pyVersion := "2.3", executable := "py",
    date := "d",
    framesResult := Except.ok [],
    etypeStr := "E", evalueStr := "v",
    strMapFails := false, fallbackEtypeStr := "", fallbackEvalueStr := "",
    isOldStyleInstance := true,
    dirNames := Except.error ("AttributeError", "boom"),
    attrVal := fun _ => "" }

/-- The same call, but with a traceback on which `_fixed_getframes`
raises (for example `etb = None`, on which
`inspect.getinnerframes(None)` raises `AttributeError`). -/
def raisingFramesInput : ExcInput :=
  { brokenDirInput with framesResult := Except.error PyExn.other }

/-- The text `print_exc` returns in the broken-`dir()` scenario. -/
def brokenDirRendered : String :=
  match print_exc brokenDirInput with
  | .ok s => s
  | .error _ => ""

/-- A frame whose source file cannot be found: `linecache.getlines`
returned `[]`, and `_fixed_getframes` stored the padded window and the
computed index (target line 3, context 5). -/
def missingFileRecord : RenderRecord :=
  { file := "mod.py", lnum := 3, func := "?",
    fmtArgs := Except.ok "", tokens := [], covars := [], localKeys := [],
    evalRepr := fun _ => Except.error (),
    lines := extractWindow [] 3 5,
    index := some (extractIndex 3 5) }

/-- The numbered source panel the renderer appends for that frame. -/
def missingPanel : String :=
  String.join (format_traceback_lines 3 (extractIndex 3 5)
    (extractWindow [] 3 5) "")

/-! ## Theorems -/

/-! ### Helper lemmas about `uniq_stable` -/

theorem uniq_stable_loop_eq {α : Type} [DecidableEq α] :
    ∀ (l acc : List α),
      uniq_stable_loop l acc =
        acc ++ firstOccurrenceDedup (l.filter (fun y => y ∉ acc))
  | [], acc => by simp [uniq_stable_loop, firstOccurrenceDedup]
  | nn :: rest, acc => by
    by_cases h : nn ∈ acc
    · rw [uniq_stable_loop, if_pos h, uniq_stable_loop_eq rest acc]
      have : (List.filter (fun y => decide (y ∉ acc)) (nn :: rest)) =
          List.filter (fun y => decide (y ∉ acc)) rest := by
        rw [List.filter_cons]
        simp [h]
      simp only [this]
    · rw [uniq_stable_loop, if_neg h, uniq_stable_loop_eq rest (acc ++ [nn])]
      have hfc : (List.filter (fun y => decide (y ∉ acc)) (nn :: rest)) =
          nn :: List.filter (fun y => decide (y ∉ acc)) rest := by
        rw [List.filter_cons]
        simp [h]
      rw [hfc, firstOccurrenceDedup]
      have hff : (List.filter (fun y => decide (y ∉ acc)) rest).filter
            (fun y => y ≠ nn) =
          rest.filter (fun y => decide (y ∉ acc ++ [nn])) := by
        rw [List.filter_filter]
        apply List.filter_congr
        intro x _
        by_cases hx1 : x = nn <;> by_cases hx2 : x ∈ acc <;>
          simp [hx1, hx2, List.mem_append]
      rw [hff]
      simp

theorem mem_firstOccurrenceDedup {α : Type} [DecidableEq α] (x : α) :
    ∀ l : List α, x ∈ firstOccurrenceDedup l ↔ x ∈ l
  | [] => by simp [firstOccurrenceDedup]
  | y :: ys => by
    rw [firstOccurrenceDedup]
    by_cases hxy : x = y
    · simp [hxy]
    · simp only [List.mem_cons, hxy, false_or]
      rw [mem_firstOccurrenceDedup x (ys.filter (fun z => z ≠ y))]
      simp [List.mem_filter, hxy]
termination_by l => l.length
decreasing_by
  simp only [List.length_cons]
  exact Nat.lt_succ_of_le (List.length_filter_le _ _)

theorem nodup_firstOccurrenceDedup {α : Type} [DecidableEq α] :
    ∀ l : List α, (firstOccurrenceDedup l).Nodup
  | [] => by simp [firstOccurrenceDedup]
  | y :: ys => by
    rw [firstOccurrenceDedup]
    refine List.nodup_cons.mpr ⟨?_, nodup_firstOccurrenceDedup _⟩
    rw [mem_firstOccurrenceDedup]
    simp
termination_by l => l.length
decreasing_by
  simp only [List.length_cons]
  exact Nat.lt_succ_of_le (List.length_filter_le _ _)

theorem uniq_stable_eq_firstOccurrenceDedup {α : Type} [DecidableEq α]
    (l : List α) : uniq_stable l = firstOccurrenceDedup l := by
  rw [uniq_stable, uniq_stable_loop_eq l []]
  simp

/-- Claim C6: for every input list, `uniq_stable` returns a list that
contains each distinct element of the input exactly once, in the order
of first occurrence (it equals the first-occurrence deduplication
written from the spec); in particular `[a, b, a, c, b]` yields
`[a, b, c]` for pairwise distinct `a`, `b`, `c`. -/
theorem uniq_stable_claim {α : Type} [DecidableEq α] (l : List α) :
    uniq_stable l = firstOccurrenceDedup l
  ∧ (uniq_stable l).Nodup
  ∧ (∀ x, x ∈ uniq_stable l ↔ x ∈ l)
  ∧ (∀ x, x ∈ l → (uniq_stable l).count x = 1)
  ∧ (∀ a b c : α, a ≠ b → a ≠ c → b ≠ c →
      uniq_stable [a, b, a, c, b] = [a, b, c]) := by
  have he := uniq_stable_eq_firstOccurrenceDedup l
  have hn : (uniq_stable l).Nodup := by
    rw [he]; exact nodup_firstOccurrenceDedup l
  have hm : ∀ x, x ∈ uniq_stable l ↔ x ∈ l := by
    intro x; rw [he]; exact mem_firstOccurrenceDedup x l
  refine ⟨he, hn, hm, ?_, ?_⟩
  · intro x hx
    exact List.count_eq_one_of_mem hn ((hm x).mpr hx)
  · intro a b c hab hac hbc
    have hba : ¬(b = a) := fun h => hab h.symm
    have hca : ¬(c = a) := fun h => hac h.symm
    have hcb : ¬(c = b) := fun h => hbc h.symm
    simp [uniq_stable, uniq_stable_loop, hba, hca, hcb, hab, hac, hbc]

/-- Witness for C6 at a concrete input. -/
theorem uniq_stable_claim_witness :
    uniq_stable [0, 1, 0, 2, 1] = firstOccurrenceDedup [0, 1, 0, 2, 1]
  ∧ (uniq_stable [0, 1, 0, 2, 1]).count 0 = 1
  ∧ uniq_stable [0, 1, 0, 2, 1] = [0, 1, 2] := by
  obtain ⟨he, _, _, hc, hex⟩ := uniq_stable_claim [0, 1, 0, 2, 1]
  exact ⟨he, hc 0 (by decide), hex 0 1 2 (by decide) (by decide) (by decide)⟩

/-- Claim C3 counterexample: on the line `y = obj.attr + obj.attr2`
the referenced-name extractor does not return
`['obj.attr', 'obj.attr2']`; it returns `['y', 'obj.attr',
'obj.attr2']` (the assignment target `y` is collected too). -/
theorem referencedNames_objLine_counterexample :
    referencedNames tokensObjLine ≠ ["obj.attr", "obj.attr2"]
  ∧ referencedNames tokensObjLine = ["y", "obj.attr", "obj.attr2"] := by
  constructor
  · decide
  · decide

/-- Claim C3 (amended): on the line `y = obj.attr + obj.attr2` the
referenced-name extractor yields exactly `['y', 'obj.attr',
'obj.attr2']`, in that order, with no other entries. -/
theorem referencedNames_objLine :
    referencedNames tokensObjLine = ["y", "obj.attr", "obj.attr2"] := by
  decide

/-- Claim C9: for a source file with exactly 3 lines, target line 3
and context 5, the source-window extractor returns the 3 file lines
followed by exactly 2 trailing blank pad lines, 5 entries in total. -/
theorem extractWindow_three_line_end (a b c : String) :
    extractWindow [a, b, c] 3 5 = [a, b, c, "\n", "\n"] := rfl

/-- Claim C5: for a referenced name whose base identifier is among the
frame's `co_varnames` and present in the locals mapping, any failure
of the evaluation is recorded as the literal value `undefined` (the
failure never propagates - the embedding of the bare `except:` is
total); a name whose base identifier is not a recognized local
produces no output line at all. -/
theorem value_resolver_claim (covars localKeys : List String)
    (evalRepr : String → Except Unit String) (name_full : String) :
    (baseIdent name_full ∈ covars →
     baseIdent name_full ∈ localKeys →
     evalRepr name_full = Except.error () →
       lvalEntry covars localKeys evalRepr name_full =
         some (name_full ++ (" = ") ++ ("undefined")))
  ∧ (baseIdent name_full ∉ covars →
       lvalEntry covars localKeys evalRepr name_full = none)
  ∧ (∀ names : List String,
       (∀ n ∈ names, baseIdent n ∉ covars) →
       lvalsEntries covars localKeys evalRepr names = []) := by
  refine ⟨?_, ?_, ?_⟩
  · intro h1 h2 h3
    simp [lvalEntry, h1, h2, h3]
  · intro h1
    simp [lvalEntry, h1]
  · intro names hall
    rw [lvalsEntries, List.filterMap_eq_nil_iff]
    intro n hn
    simp [lvalEntry, hall n hn]

/-- Witness for C5 at concrete inputs. -/
theorem value_resolver_claim_witness :
    lvalEntry ["x"] ["x"] (fun _ => Except.error ()) "x.y" =
      some ("x.y" ++ (" = ") ++ ("undefined"))
  ∧ lvalEntry ["z"] [] (fun _ => Except.error ()) "w" = none := by
  constructor
  · exact (value_resolver_claim ["x"] ["x"] (fun _ => Except.error ()) "x.y").1
      (by decide) (by decide) rfl
  · exact (value_resolver_claim ["z"] [] (fun _ => Except.error ()) "w").2.1
      (by decide)

/-- Claim C8 counterexample: a signature-resolution failure other than
a `KeyError` does not degrade to the placeholder - it propagates out
of the record loop. -/
theorem callFragment_counterexample :
    callFragment ("f") (Except.error PyExn.other) = Except.error PyExn.other
  ∧ callFragment ("f") (Except.error PyExn.other) ≠
      Except.ok (("in ") ++ ("f") ++ ("(***failed resolving arguments***)")) := by
  refine ⟨rfl, fun h => Except.noConfusion h⟩

/-- Claim C8 (amended): the call fragment is `in <func><formatted>`
when the signature resolves; a `KeyError` during signature formatting
- the only failure the source catches - degrades to exactly
`in <func>(***failed resolving arguments***)`; any other failure
propagates; and when no function name is available (`func == '?'`) the
fragment is the empty string. -/
theorem callFragment_claim (func : String) (fmtArgs : Except PyExn String) :
    (func = ("?") → callFragment func fmtArgs = Except.ok "")
  ∧ (func ≠ ("?") → ∀ s, fmtArgs = Except.ok s →
       callFragment func fmtArgs = Except.ok (("in ") ++ func ++ s))
  ∧ (func ≠ ("?") → fmtArgs = Except.error PyExn.keyError →
       callFragment func fmtArgs =
         Except.ok (("in ") ++ func ++ ("(***failed resolving arguments***)")))
  ∧ (func ≠ ("?") → fmtArgs = Except.error PyExn.other →
       callFragment func fmtArgs = Except.error PyExn.other) := by
  refine ⟨?_, ?_, ?_, ?_⟩
  · intro h; simp [callFragment, h]
  · intro h s hs; simp [callFragment, h, hs]
  · intro h hs; simp [callFragment, h, hs]
  · intro h hs; simp [callFragment, h, hs]

/-- Witness for C8 at concrete inputs. -/
theorem callFragment_claim_witness :
    callFragment ("?") (Except.ok "(x=1)") = Except.ok ""
  ∧ callFragment ("g") (Except.ok "(x=1)") =
      Except.ok (("in ") ++ ("g") ++ ("(x=1)"))
  ∧ callFragment ("g") (Except.error PyExn.keyError) =
      Except.ok (("in ") ++ ("g") ++ ("(***failed resolving arguments***)")) := by
  refine ⟨?_, ?_, ?_⟩
  · exact (callFragment_claim ("?") (Except.ok "(x=1)")).1 rfl
  · exact (callFragment_claim ("g") (Except.ok "(x=1)")).2.1
      (by decide) "(x=1)" rfl
  · exact (callFragment_claim ("g") (Except.error PyExn.keyError)).2.2.1
      (by decide) rfl

/-- Claim C10: `fix_frame_records_filenames` preserves the number of
records and every component of every record except the filename, which
is replaced exactly when the frame's globals hold a string-valued
`__file__`, in which case it becomes that string. -/
theorem fix_frame_records_claim (records : List FrameTuple) :
    (fix_frame_records_filenames records).length = records.length
  ∧ (∀ (i : Nat) (r : FrameTuple), records[i]? = some r →
      (fix_frame_records_filenames records)[i]? = some
        { frame := r.frame,
          filename :=
            match r.frame.file_global with
            | some (PyFileVal.strv s) => s
            | _ => r.filename,
          line_no := r.line_no, func_name := r.func_name,
          lines := r.lines, index := r.index }) := by
  constructor
  · simp [fix_frame_records_filenames]
  · intro i r hr
    rw [fix_frame_records_filenames, List.getElem?_map, hr]
    cases r with
    | mk frame filename line_no func_name lines index =>
      cases hg : frame.file_global with
      | none => simp [hg]
      | some v =>
        cases v with
        | strv s => simp [hg]
        | nonstr => simp [hg]

/-- Witness for C10 at a concrete record list. -/
theorem fix_frame_records_claim_witness :
    (fix_frame_records_filenames
        [{ frame := { file_global := some (PyFileVal.strv "real.py") },
           filename := "zipped.pyc", line_no := 4, func_name := "f",
           lines := none, index := none }])[0]? = some
      { frame := { file_global := some (PyFileVal.strv "real.py") },
        filename := "real.py", line_no := 4, func_name := "f",
        lines := none, index := none } := by
  exact (fix_frame_records_claim
      [{ frame := { file_global := some (PyFileVal.strv "real.py") },
         filename := "zipped.pyc", line_no := 4, func_name := "f",
         lines := none, index := none }]).2 0 _ rfl

/-! ### Helper lemma: `safe_repr` can only fail with `KeyboardInterrupt` -/

theorem safe_repr_ne_exn : ∀ v : PyVal, safe_repr v ≠ Except.error PyErr.exn
  | .mk pd rp nm kl => by
    rw [safe_repr.eq_def]
    cases pd with
    | ok s => simp
    | error e =>
      cases e with
      | ki => simp
      | exn =>
        cases rp with
        | ok s => simp
        | error e2 =>
          cases e2 with
          | ki => simp
          | exn =>
            cases nm with
            | raises e3 => cases e3 <;> simp
            | attr nv =>
              have ih := safe_repr_ne_exn nv
              cases hnv : safe_repr nv with
              | ok r => simp [hnv]
              | error e5 =>
                cases e5 with
                | ki => simp [hnv]
                | exn => exact absurd hnv ih
            | absent =>
              cases kl with
              | raises e4 => cases e4 <;> simp
              | attr kv =>
                have ih := safe_repr_ne_exn kv
                cases hkv : safe_repr kv with
                | ok r => simp [hkv]
                | error e5 =>
                  cases e5 with
                  | ki => simp [hkv]
                  | exn => exact absurd hkv ih
              | absent => simp

/-- Claim C4 counterexample: a value whose detailed and plain
representations both fail but whose `__name__` and `__class__`
attribute reads succeed with falsy results makes `safe_repr` fall off
the end of the function and return Python `None` - not the sentinel
string `UNRECOVERABLE REPR FAILURE`. -/
theorem safe_repr_counterexample :
    safe_repr (PyVal.mk (Except.error PyErr.exn) (Except.error PyErr.exn)
        PyAttr.absent PyAttr.absent) = Except.ok none
  ∧ (Except.ok (none : Option String) : Except PyErr (Option String)) ≠
      Except.ok (some ("UNRECOVERABLE REPR FAILURE")) := by
  refine ⟨rfl, fun h => ?_⟩
  have h2 := Except.ok.inj h
  exact Option.noConfusion h2

/-- Claim C4 (amended): `safe_repr` never raises except propagating
`KeyboardInterrupt`, and follows the fallback chain detailed repr,
plain repr, `__name__` (rendered via `safe_repr`), then the class
(rendered as `<safe_repr of class> instance`); when a fallback step
itself raises a non-interrupt exception the fixed sentinel
`UNRECOVERABLE REPR FAILURE` is returned, but when the representations
fail and both attribute reads merely yield falsy values, the function
returns Python `None` instead of the sentinel. -/
theorem safe_repr_claim (rp : Except PyErr String) (nm kl : PyAttr)
    (s : String) :
    (∀ v : PyVal, safe_repr v ≠ Except.error PyErr.exn)
  ∧ safe_repr (PyVal.mk (Except.ok s) rp nm kl) = Except.ok (some s)
  ∧ safe_repr (PyVal.mk (Except.error PyErr.exn) (Except.ok s) nm kl) =
      Except.ok (some s)
  ∧ (∀ (nv : PyVal) (r : Option String), safe_repr nv = Except.ok r →
       safe_repr (PyVal.mk (Except.error PyErr.exn) (Except.error PyErr.exn)
           (PyAttr.attr nv) kl) = Except.ok r)
  ∧ (∀ (kv : PyVal) (r : Option String), safe_repr kv = Except.ok r →
       safe_repr (PyVal.mk (Except.error PyErr.exn) (Except.error PyErr.exn)
           PyAttr.absent (PyAttr.attr kv)) =
         Except.ok (some (pyStrOpt r ++ (" instance"))))
  ∧ safe_repr (PyVal.mk (Except.error PyErr.exn) (Except.error PyErr.exn)
        (PyAttr.raises PyErr.exn) kl) =
      Except.ok (some ("UNRECOVERABLE REPR FAILURE"))
  ∧ safe_repr (PyVal.mk (Except.error PyErr.exn) (Except.error PyErr.exn)
        PyAttr.absent PyAttr.absent) = Except.ok none := by
  refine ⟨safe_repr_ne_exn, rfl, rfl, ?_, ?_, rfl, rfl⟩
  · intro nv r hnv
    rw [safe_repr.eq_def]
    simp [hnv]
  · intro kv r hkv
    rw [safe_repr.eq_def]
    simp [hkv]

/-- Witness for C4 at concrete values. -/
theorem safe_repr_claim_witness :
    safe_repr (PyVal.mk (Except.error PyErr.exn) (Except.error PyErr.exn)
        (PyAttr.attr (PyVal.mk (Except.ok "f") (Except.error PyErr.exn)
          PyAttr.absent PyAttr.absent)) PyAttr.absent) =
      Except.ok (some "f")
  ∧ safe_repr (PyVal.mk (Except.error PyErr.exn) (Except.error PyErr.exn)
        PyAttr.absent (PyAttr.attr (PyVal.mk (Except.ok "C")
          (Except.error PyErr.exn) PyAttr.absent PyAttr.absent))) =
      Except.ok (some (pyStrOpt (some "C") ++ (" instance"))) := by
  obtain ⟨_, _, _, hname, hklass, _, _⟩ :=
    safe_repr_claim (Except.ok "") PyAttr.absent PyAttr.absent ""
  exact ⟨hname _ (some "f") rfl, hklass _ (some "C") rfl⟩

/-- Claim C2 (code bug): on an exception value whose attribute
enumeration (`dir`) throws, `print_exc` returns a text block that does
**not** contain the failure-reported placeholder - the placeholder is
appended to the `exception` list, but the return statement joins only
`exception[0]`, dropping every later entry; and a failure while
building the frame records propagates out of `print_exc` (its
`except:` clause immediately re-raises, leaving the graceful
degradation after it unreachable) instead of degrading to text. -/
theorem print_exc_code_bug :
    print_exc brokenDirInput = Except.ok brokenDirRendered
  ∧ occursInChars ("Exception reporting error").data brokenDirRendered.data
      = false
  ∧ print_exc raisingFramesInput = Except.error PyExn.other := by
  refine ⟨rfl, ?_, rfl⟩
  set_option maxRecDepth 4000 in decide

/-! ### Helper lemmas for the window/renderer theorems -/

theorem formatLinesLoop_ne_nil (lnum : Int) (lvals : String) (i : Int)
    (x : String) (xs : List String) :
    formatLinesLoop lnum lvals i (x :: xs) ≠ [] := by
  rw [formatLinesLoop]
  split
  · simp
  · simp

theorem extractWindow_nil (lnum c : Nat) (h1 : 1 ≤ lnum) :
    extractWindow [] lnum c = List.replicate c ("\n") := by
  rw [extractWindow]
  simp only [List.drop_nil, List.take_nil]
  by_cases hms : ((lnum : Int) - 1 - (c : Int) / 2) < 0
  · rw [padHead, if_pos hms, padTail]
    simp only [List.append_nil, List.length_replicate]
    by_cases hlt : (-((lnum : Int) - 1 - (c : Int) / 2)).toNat < c
    · rw [if_pos hlt, List.append_replicate_replicate]
      congr 1
      omega
    · rw [if_neg hlt]
      congr 1
      omega
  · rw [padHead, if_neg hms, padTail]
    simp only [List.length_nil, List.nil_append]
    by_cases hc : 0 < c
    · rw [if_pos hc]
      simp
    · rw [if_neg hc]
      have : c = 0 := by omega
      simp [this]

theorem extractIndex_eq_min (lnum c : Nat) (h1 : 1 ≤ lnum) :
    extractIndex lnum c = ((min (lnum - 1) (c / 2) : Nat) : Int) := by
  rw [extractIndex]
  omega

theorem frameBody_of_index_some (r : RenderRecord) (i : Int) (call : String)
    (h2 : r.index = some i)
    (h3 : callFragment r.func r.fmtArgs = Except.ok call) :
    frameBody r = Except.ok (frameLevel r call ++
      String.join (format_traceback_lines (r.lnum : Int) i r.lines
        (lvalsText (lvalsEntries r.covars r.localKeys r.evalRepr
          (referencedNames r.tokens))))) := by
  rw [frameBody, h3, h2]

/-- Claim C7 counterexample: when the source file cannot be found
(`linecache.getlines` yields `[]`), the extractor does not return an
empty window - it returns `context` blank lines (here 5), stores the
numeric index 2, and the renderer then emits a source panel (the level
line is strictly extended by a non-empty panel). -/
theorem missing_file_counterexample :
    extractWindow [] 3 5 ≠ []
  ∧ extractWindow [] 3 5 = ["\n", "\n", "\n", "\n", "\n"]
  ∧ extractIndex 3 5 = 2
  ∧ frameBody missingFileRecord =
      Except.ok (frameLevel missingFileRecord "" ++ missingPanel)
  ∧ missingPanel ≠ "" := by
  refine ⟨by decide, by decide, by decide, rfl, by decide⟩

/-- Claim C7 (amended): when the source file cannot be found,
extraction does not fail, but it returns a window of exactly `context`
blank lines (not an empty window) and records the numeric index
`min(target-1, context//2)`; since the index of an extracted record is
never `None`, the renderer emits a source panel for the frame (the
panel of a non-empty window being a non-empty line list). -/
theorem missing_file_claim (lnum c : Nat) (h1 : 1 ≤ lnum) :
    extractWindow [] lnum c = List.replicate c ("\n")
  ∧ extractIndex lnum c = ((min (lnum - 1) (c / 2) : Nat) : Int)
  ∧ (∀ (r : RenderRecord) (i : Int) (call : String), r.index = some i →
       callFragment r.func r.fmtArgs = Except.ok call →
       frameBody r = Except.ok (frameLevel r call ++
         String.join (format_traceback_lines (r.lnum : Int) i r.lines
           (lvalsText (lvalsEntries r.covars r.localKeys r.evalRepr
             (referencedNames r.tokens))))))
  ∧ (1 ≤ c →
       format_traceback_lines (lnum : Int) (extractIndex lnum c)
         (extractWindow [] lnum c) ("") ≠ []) := by
  refine ⟨extractWindow_nil lnum c h1, extractIndex_eq_min lnum c h1,
    frameBody_of_index_some, ?_⟩
  intro hc
  rw [extractWindow_nil lnum c h1]
  obtain ⟨k, hk⟩ : ∃ k, c = k + 1 := ⟨c - 1, by omega⟩
  rw [hk, List.replicate_succ, format_traceback_lines]
  exact formatLinesLoop_ne_nil _ _ _ _ _

/-- Witness for C7 at concrete inputs. -/
theorem missing_file_claim_witness :
    extractWindow [] 3 5 = List.replicate 5 ("\n")
  ∧ extractIndex 3 5 = ((min (3 - 1) (5 / 2) : Nat) : Int)
  ∧ format_traceback_lines ((3 : Nat) : Int) (extractIndex 3 5)
      (extractWindow [] 3 5) ("") ≠ [] := by
  obtain ⟨hw, hi, _, hp⟩ := missing_file_claim 3 5 (by decide)
  exact ⟨hw, hi, hp (by decide)⟩

theorem padTail_eq (c : Nat) (l : List String) :
    padTail c l = l ++ List.replicate (c - l.length) ("\n") := by
  by_cases h : l.length < c
  · rw [padTail, if_pos h]
  · rw [padTail, if_neg h]
    have hz : c - l.length = 0 := by omega
    rw [hz]
    simp

theorem padTail_length (c : Nat) (l : List String) :
    (padTail c l).length = max c l.length := by
  rw [padTail_eq, List.length_append, List.length_replicate]
  omega

theorem padTail_getElem (c : Nat) (l : List String) (j : Nat)
    (h : j < l.length) : (padTail c l)[j]? = l[j]? := by
  rw [padTail_eq, List.getElem?_append_left h]

/-- Claim C1 counterexample: at the top of a file with at least 5
lines (target line 1, context 5) the window has 7 entries, not 5, and
the recorded index 0 points at a leading blank pad line, not at the
target line. -/
theorem window_top_counterexample :
    (extractWindow ["a", "b", "c", "d", "e"] 1 5).length = 7
  ∧ (extractWindow ["a", "b", "c", "d", "e"] 1 5).length ≠ 5
  ∧ extractIndex 1 5 = 0
  ∧ (extractWindow ["a", "b", "c", "d", "e"] 1 5)[(extractIndex 1 5).toNat]?
      = some ("\n")
  ∧ ["a", "b", "c", "d", "e"][(0 : Nat)]? = some ("a") := by
  refine ⟨by decide, by decide, by decide, by decide, by decide⟩

/-- Claim C1 (amended): the extracted window has exactly `context`
entries with the target line at position `target-1-start` only when
`target-1 >= context//2` (no leading pad).  In general its length is
`max context (pad + min context (filelen - start))` where
`pad = context//2 - (target-1)` when positive, and the target line
(when it exists) sits at position `pad + (target-1-start)`, i.e. at
`context//2` - shifted past the leading pads the source prepends to
lines it has already read in full. -/
theorem extractWindow_claim (f : List String) (lnum c : Nat)
    (h1 : 1 ≤ lnum) (h2 : 1 ≤ c) :
    (extractWindow f lnum c).length =
      max c ((c / 2 - (lnum - 1)) + min c (f.length - (lnum - 1 - c / 2)))
  ∧ (lnum - 1 < f.length →
      (extractWindow f lnum c)[(c / 2 - (lnum - 1)) +
          (extractIndex lnum c).toNat]? = f[lnum - 1]?) := by
  have hidx := extractIndex_eq_min lnum c h1
  by_cases hcase : c / 2 ≤ lnum - 1
  · have hms : ¬ ((lnum : Int) - 1 - (c : Int) / 2 < 0) := by omega
    have htoNat : ((lnum : Int) - 1 - (c : Int) / 2).toNat = lnum - 1 - c / 2 := by
      omega
    have hp0 : c / 2 - (lnum - 1) = 0 := by omega
    have hwin : extractWindow f lnum c =
        padTail c ((f.drop (lnum - 1 - c / 2)).take c) := by
      rw [extractWindow, padHead, if_neg hms, htoNat]
    constructor
    · rw [hwin, padTail_length, List.length_take, List.length_drop, hp0]
      omega
    · intro hlt
      have hd : (extractIndex lnum c).toNat = c / 2 := by
        rw [hidx]
        omega
      rw [hwin, hd, hp0]
      have hj2 : 0 + c / 2 < ((f.drop (lnum - 1 - c / 2)).take c).length := by
        rw [List.length_take, List.length_drop]
        omega
      rw [padTail_getElem _ _ _ hj2]
      rw [List.getElem?_take_of_lt (by omega : 0 + c / 2 < c)]
      rw [List.getElem?_drop]
      congr 1
      omega
  · have hms : ((lnum : Int) - 1 - (c : Int) / 2) < 0 := by omega
    have htoNat0 : ((lnum : Int) - 1 - (c : Int) / 2).toNat = 0 := by omega
    have hpneg : (-((lnum : Int) - 1 - (c : Int) / 2)).toNat =
        c / 2 - (lnum - 1) := by omega
    have hstart0 : lnum - 1 - c / 2 = 0 := by omega
    have hwin : extractWindow f lnum c =
        padTail c (List.replicate (c / 2 - (lnum - 1)) ("\n") ++ f.take c) := by
      rw [extractWindow, padHead, if_pos hms, htoNat0, hpneg, List.drop_zero]
    constructor
    · rw [hwin, padTail_length, List.length_append, List.length_replicate,
        List.length_take, hstart0]
      omega
    · intro hlt
      have hd : (extractIndex lnum c).toNat = lnum - 1 := by
        rw [hidx]
        omega
      rw [hwin, hd]
      have hj : (c / 2 - (lnum - 1)) + (lnum - 1) <
          (List.replicate (c / 2 - (lnum - 1)) ("\n") ++ f.take c).length := by
        rw [List.length_append, List.length_replicate, List.length_take]
        omega
      rw [padTail_getElem _ _ _ hj]
      rw [List.getElem?_append_right
        (by rw [List.length_replicate]; omega : (List.replicate (c / 2 - (lnum - 1))
          ("\n")).length ≤ (c / 2 - (lnum - 1)) + (lnum - 1))]
      rw [List.length_replicate]
      have hsub : (c / 2 - (lnum - 1)) + (lnum - 1) - (c / 2 - (lnum - 1)) =
          lnum - 1 := by omega
      rw [hsub]
      exact List.getElem?_take_of_lt (by omega)

/-- Witness for C1 at a concrete input (file of 3 lines, target line
2, context 3: no leading pad, window of exactly 3 with the target in
the middle). -/
theorem extractWindow_claim_witness :
    (extractWindow ["a", "b", "c"] 2 3).length =
      max 3 ((3 / 2 - (2 - 1)) + min 3 (["a", "b", "c"].length - (2 - 1 - 3 / 2)))
  ∧ (extractWindow ["a", "b", "c"] 2 3)[(3 / 2 - (2 - 1)) +
        (extractIndex 2 3).toNat]? = ["a", "b", "c"][2 - 1]? := by
  obtain ⟨ha, hb⟩ := extractWindow_claim ["a", "b", "c"] 2 3 (by decide) (by decide)
  exact ⟨ha, hb (by decide)⟩
